import Mathlib

/-!
Verification development for the `transport-booking` repository: a WhatsApp
transport-booking conversation engine (Node.js / Express / Mongoose).

The repository contains several iterative revisions of the same services:
  * `src/services/conversationService.js`   — the current conversation engine
    (global commands, per-step switch, Paystack payment initialization);
  * `src/unnamed/part_004`, `src/unnamed/part_005` — earlier revisions of
    `conversationService.js` whose `review_booking` confirmation writes the
    seat ledger directly;
  * `src/unnamed/part_003` — `sessionService.js` (session store);
  * `src/models/*` — Mongoose schemas (`Session`, `Booking`, `Departure`, ...).

The definitions below are a shallow embedding of that JavaScript, translated
function by function.  Conventions:
  * JavaScript numbers become `Int` (all values involved are integral);
  * `parseInt(x, 10)` becomes `jsParseInt` (leading-whitespace skip, optional
    sign, longest digit run; `NaN` becomes `none`);
  * `Date` values at UTC midnight become epoch-day numbers (`Int`), with
    `Date.UTC` field normalization and the civil-calendar conversions
    reproduced exactly (including the 0..99 → 1900-based year quirk);
  * Mongoose documents become structures; a query becomes a pure function of
    an explicit `World` (routes, departures, bookings) — queries in the code
    are awaited one after the other inside a single message handler, so one
    handler invocation is modelled as an atomic function of the world;
  * reply strings are abstracted to a `Reply` inductive, one constructor per
    distinct reply site in the source, carrying the dynamic data interpolated
    into the text (the sentiment-analysis feature only prepends cosmetic text
    and never alters control flow, so it is not modelled);
  * the Paystack `axios.post` call is modelled by a `PayResult` input
    (success with authorization url + reference / declined response /
    thrown error), and the generated `uuid` booking reference by a
    `freshRef` input.
-/

/-! ### JavaScript string primitives -/

/-- `String.prototype.toLowerCase()` restricted to ASCII, which is the only
alphabet the option lists and commands of this code base use. -/
def toLowerStr (s : String) : String :=
  ⟨s.data.map Char.toLower⟩

/-- `String.prototype.toUpperCase()` restricted to ASCII. -/
def toUpperStr (s : String) : String :=
  ⟨s.data.map Char.toUpper⟩

/-- `String.prototype.trim()` (whitespace stripped from both ends). -/
def trimStr (s : String) : String :=
  ⟨((s.data.dropWhile Char.isWhitespace).reverse.dropWhile Char.isWhitespace).reverse⟩

/-- Whether the first list starts with the second. -/
def listStartsWith : List Char → List Char → Bool
  | _, [] => true
  | [], _ :: _ => false
  | c :: cs, p :: ps => c = p && listStartsWith cs ps

/-- Numeric value of a decimal digit character. -/
def digitVal (c : Char) : Nat :=
  c.toNat - 48

/-- Accumulate the longest run of leading decimal digits. -/
def digitRun : List Char → Nat → Nat
  | [], acc => acc
  | c :: cs, acc => if c.isDigit then digitRun cs (acc * 10 + digitVal c) else acc

/-- The longest leading digit run of a character list, or `none` when the list
does not start with a digit. -/
def leadingNat : List Char → Option Nat
  | [] => none
  | c :: cs => if c.isDigit then some (digitRun (c :: cs) 0) else none

/-- JavaScript `parseInt(s, 10)`: skip leading whitespace, read an optional
sign, then the longest run of decimal digits; `NaN` (no digits) is `none`. -/
def jsParseInt (s : String) : Option Int :=
  let cs := s.data.dropWhile Char.isWhitespace
  match cs with
  | '-' :: rest => (leadingNat rest).map (fun n => -(n : Int))
  | '+' :: rest => (leadingNat rest).map (fun n => (n : Int))
  | rest => (leadingNat rest).map (fun n => (n : Int))

/-! ### Choice resolution

`validateChoice` from `src/services/conversationService.js` lines 35-51
(identical, up to index bookkeeping, to `src/unnamed/part_005` lines 26-42):
the input is trimmed and lower-cased, a 1-based numeric index is tried FIRST,
and only if the number is absent or out of range is an exact case-insensitive
text match tried.  The matched option is returned in its stored casing. -/

def validateChoice (userInput : String) (options : List String) : Option String :=
  let normalizedInput := toLowerStr (trimStr userInput)
  let byNumber : Option String :=
    match jsParseInt normalizedInput with
    | some num =>
        if 0 < num && num ≤ (options.length : Int) then
          options[(num - 1).toNat]?
        else
          none
    | none => none
  match byNumber with
  | some o => some o
  | none => options.find? (fun option => toLowerStr option = normalizedInput)

/-- The choice-resolution algorithm as the specification words it (text match
first, numeric index only when no text match exists).  This definition follows
the spec, not the source; it exists to be compared with `validateChoice`. -/
def validateChoiceSpecOrder (userInput : String) (options : List String) : Option String :=
  let normalizedInput := toLowerStr (trimStr userInput)
  match options.find? (fun option => toLowerStr option = normalizedInput) with
  | some o => some o
  | none =>
      match jsParseInt normalizedInput with
      | some num =>
          if 0 < num && num ≤ (options.length : Int) then
            options[(num - 1).toNat]?
          else
            none
      | none => none

/-! ### Civil-calendar arithmetic

Epoch-day encoding of UTC-midnight `Date` values.  `daysFromCivil` and
`civilFromDays` are the standard proleptic-Gregorian conversions that
ECMAScript `Date.UTC` / `getUTCFullYear` / `getUTCMonth` / `getUTCDate`
implement (day 0 = 1970-01-01). -/

/-- Days since 1970-01-01 of the civil date `y-m-d` (`m` is 1-based). -/
def daysFromCivil (y m d : Int) : Int :=
  let y' := y - (if m ≤ 2 then 1 else 0)
  let era := Int.fdiv y' 400
  let yoe := y' - era * 400
  let mp := m + (if 2 < m then -3 else 9)
  let doy := Int.ediv (153 * mp + 2) 5 + d - 1
  let doe := yoe * 365 + Int.ediv yoe 4 - Int.ediv yoe 100 + doy
  era * 146097 + doe - 719468

/-- Civil date `(y, m, d)` (month 1-based) of an epoch-day number. -/
def civilFromDays (z0 : Int) : Int × Int × Int :=
  let z := z0 + 719468
  let era := Int.fdiv z 146097
  let doe := z - era * 146097
  let yoe := Int.ediv (doe - Int.ediv doe 1460 + Int.ediv doe 36524 - Int.ediv doe 146096) 365
  let y := yoe + era * 400
  let doy := doe - (365 * yoe + Int.ediv yoe 4 - Int.ediv yoe 100)
  let mp := Int.ediv (5 * doy + 2) 153
  let d := doy - Int.ediv (153 * mp + 2) 5 + 1
  let m := mp + (if mp < 10 then 3 else -9)
  (y + (if m ≤ 2 then 1 else 0), m, d)

/-- `Date.UTC(year, month, day)` at day granularity: JavaScript normalizes
out-of-range month/day fields by carrying (e.g. month 12 is January of the
next year, day 30 of February runs into March), and maps years 0..99 to
1900..1999.  `month` is the 0-based JavaScript month. -/
def jsDateUTC (year month day : Int) : Int :=
  let y := if 0 ≤ year && year ≤ 99 then year + 1900 else year
  let ym := y + Int.fdiv month 12
  let mm := Int.emod month 12
  daysFromCivil ym (mm + 1) 1 + (day - 1)

/-- `Date.prototype.getUTCDay()` of an epoch day (0 = Sunday); day 0
(1970-01-01) was a Thursday. -/
def jsGetUTCDay (z : Int) : Int :=
  Int.emod (z + 4) 7

/-- The `days` array of `parseDateInput` (`indexOf` of a weekday name). -/
def weekdayIndex (s : String) : Option Int :=
  if s = "sunday" then some 0
  else if s = "monday" then some 1
  else if s = "tuesday" then some 2
  else if s = "wednesday" then some 3
  else if s = "thursday" then some 4
  else if s = "friday" then some 5
  else if s = "saturday" then some 6
  else none

/-- Splits a 10-character `YYYY-MM-DD` string into its numeric fields, which
is what the regex `^\d{4}-\d{2}-\d{2}$` test followed by `split('-')` and
`parseInt` of each part computes.  Returns `none` when the shape is wrong. -/
def ymdFields (s : String) : Option (Int × Int × Int) :=
  match s.data with
  | [y1, y2, y3, y4, h1, m1, m2, h2, d1, d2] =>
      if h1 = '-' && h2 = '-' &&
         y1.isDigit && y2.isDigit && y3.isDigit && y4.isDigit &&
         m1.isDigit && m2.isDigit && d1.isDigit && d2.isDigit then
        some (((digitVal y1 * 1000 + digitVal y2 * 100 + digitVal y3 * 10 + digitVal y4 : Nat) : Int),
              ((digitVal m1 * 10 + digitVal m2 : Nat) : Int),
              ((digitVal d1 * 10 + digitVal d2 : Nat) : Int))
      else none
  | _ => none

/-! ### Date parsing

`parseDateInput` from `src/services/conversationService.js` lines 59-123.
`today` is the reference instant — the current date at UTC midnight — passed
explicitly here (the code computes it from the clock).  Returns the parsed
date as an epoch day, or `none` when unrecognized, invalid, or in the past. -/

def parseDateRaw (today : Int) (input : String) : Option Int :=
  let normalizedInput := toLowerStr (trimStr input)
  if normalizedInput = "today" then
    some today
  else if normalizedInput = "tomorrow" then
    some (today + 1)
  else if listStartsWith normalizedInput.data "next ".data then
    match weekdayIndex ⟨normalizedInput.data.drop 5⟩ with
    | some dayIndex =>
        let currentDayIndex := jsGetUTCDay today
        let daysToAdd0 := dayIndex - currentDayIndex
        let daysToAdd := if daysToAdd0 ≤ 0 then daysToAdd0 + 7 else daysToAdd0
        some (today + daysToAdd)
    | none => none
  else
    match ymdFields normalizedInput with
    | some (year, month1, day) =>
        let month := month1 - 1
        let cand := jsDateUTC year month day
        let c := civilFromDays cand
        if c.1 = year && c.2.1 - 1 = month && c.2.2 = day then
          some cand
        else
          none
    | none => none

/-- The final check of `parseDateInput`: a parsed date strictly before the
reference UTC midnight is rejected. -/
def parseDateInput (today : Int) (input : String) : Option Int :=
  match parseDateRaw today input with
  | some d => if d < today then none else some d
  | none => none

/-! ### Seat ledger and the direct-write confirmation revisions

`part_004` and `part_005` are earlier revisions of `conversationService.js`
whose `review_booking` case writes the `Departure.availableSeats` counter
itself.  Only the data each case touches is modelled: the departure documents
(`_id`, `availableSeats`) and the booking documents it inserts.  MongoDB's
`findByIdAndUpdate` / `document.save()` update a single document, so the
ledger update rewrites only the first departure with the matching id. -/

structure DepartureL where
  id : Nat
  availableSeats : Int
  deriving DecidableEq, Repr

structure BookingL where
  departure : Nat
  passengers : Int
  totalAmount : Int
  status : String
  paymentStatus : String
  deriving DecidableEq, Repr

structure LedgerWorld where
  departures : List DepartureL
  bookings : List BookingL
  deriving DecidableEq, Repr

/-- `Departure.findById`: the first departure document with the given id. -/
def findDepL : List DepartureL → Nat → Option DepartureL
  | [], _ => none
  | dep :: deps, i => if dep.id = i then some dep else findDepL deps i

/-- The remaining-seat count of the departure with a given id. -/
def seatsOfL (deps : List DepartureL) (i : Nat) : Option Int :=
  (findDepL deps i).map DepartureL.availableSeats

/-- Add `delta` to the seat count of the first departure with the given id
(the single-document write of `$inc` / `availableSeats -= n; save()`). -/
def updSeats : List DepartureL → Nat → Int → List DepartureL
  | [], _, _ => []
  | dep :: deps, i, delta =>
      if dep.id = i then
        { dep with availableSeats := dep.availableSeats + delta } :: deps
      else
        dep :: updSeats deps i delta

/-- Total passengers of the bookings recorded against a departure. -/
def sumPassengers : List BookingL → Nat → Int
  | [], _ => 0
  | b :: bs, i => (if b.departure = i then b.passengers else 0) + sumPassengers bs i

/-- The booking details a session carries into `review_booking` in the
`part_004` revision (`departureId`, `passengers`, `totalAmount`). -/
structure Draft4 where
  departureId : Option Nat
  passengers : Option Int
  totalAmount : Option Int
  deriving DecidableEq, Repr

inductive Out4 where
  | missingReset
  | reserved (passengers : Int)
  deriving DecidableEq, Repr

/-- The affirmative (`'yes'`) path of `case 'review_booking'` in
`src/unnamed/part_004` lines 216-243: if `departureId && passengers &&
totalAmount` are truthy, a `Booking` (`status: 'pending'`) is saved and then
`Departure.findByIdAndUpdate(departureId, { $inc: { availableSeats:
-passengers } })` decrements the counter unconditionally — there is no seat
re-check in this revision, and Mongoose `findByIdAndUpdate` does not run the
`min: 0` validator.  Otherwise the session is reset. -/
def reviewConfirm4 (w : LedgerWorld) (d : Draft4) : LedgerWorld × Out4 :=
  match d.departureId, d.passengers, d.totalAmount with
  | some depId, some p, some tot =>
      if p = 0 || tot = 0 then
        (w, .missingReset)
      else
        (⟨updSeats w.departures depId (-p),
          w.bookings ++ [⟨depId, p, tot, "pending", "pending"⟩]⟩,
         .reserved p)
  | _, _, _ => (w, .missingReset)

/-- The booking details a session carries into `review_booking` in the
`part_005` revision. -/
structure Draft5 where
  origin : Option String
  destination : Option String
  date : Option Int
  departureId : Option Nat
  passengers : Option Int
  fare : Option Int
  totalAmount : Option Int
  deriving DecidableEq, Repr

inductive Out5 where
  | missingReset
  | depNotFoundReset
  | soldOutReset (availableSeats : Int)
  | confirmedReset (passengers : Int)
  deriving DecidableEq, Repr

/-- The affirmative (`'yes'`/`'confirm'`) path of `case 'review_booking'` in
`src/unnamed/part_005` lines 425-492: all critical draft fields must be
truthy (`totalAmount` only non-null); the departure is re-read and
`availableSeats < finalPassengers` aborts with a reset and no mutation;
otherwise a `Booking` (`status: 'confirmed'`) is saved and THEN the
re-read document's `availableSeats` is reduced by the passenger count and
saved back (a read-modify-write, not a conditional update).  Every outcome
resets the session. -/
def reviewConfirm5 (w : LedgerWorld) (d : Draft5) : LedgerWorld × Out5 :=
  match d.origin, d.destination, d.date, d.departureId, d.passengers, d.fare, d.totalAmount with
  | some o, some dst, some _, some depId, some p, some fr, some tot =>
      if o = "" || dst = "" || p = 0 || fr = 0 then
        (w, .missingReset)
      else
        match findDepL w.departures depId with
        | some dep =>
            if dep.availableSeats < p then
              (w, .soldOutReset dep.availableSeats)
            else
              (⟨updSeats w.departures depId (-p),
                w.bookings ++ [⟨depId, p, tot, "confirmed", "pending"⟩]⟩,
               .confirmedReset p)
        | none => (w, .depNotFoundReset)
  | _, _, _, _, _, _, _ => (w, .missingReset)

/-- A sequence of `part_005` confirmation attempts (each a user answering
`'yes'` at `review_booking` with their own accumulated draft), run one after
another against the ledger. -/
def runConfirms5 (w : LedgerWorld) : List Draft5 → LedgerWorld
  | [] => w
  | d :: ds => runConfirms5 (reviewConfirm5 w d).1 ds

/-! ### The current conversation engine (`src/services/conversationService.js`)

World state visible to one `handleIncomingMessage` invocation: the `Route`
and `Departure` collections, the `Booking` collection it appends to, and the
clock (`today`, as the UTC-midnight epoch day used by `parseDateInput`).
`Departure.departureTime` is kept in epoch milliseconds, matching the
`$gte`/`$lt` range query over the selected day. -/

def msPerDay : Int := 86400000

structure RouteR where
  id : Nat
  origin : String
  destination : String
  isActive : Bool
  deriving DecidableEq, Repr

structure DepartureR where
  id : Nat
  routeId : Nat
  departureTime : Int
  availableSeats : Int
  fare : Int
  status : String
  deriving DecidableEq, Repr

structure BookingR where
  userId : String
  departure : Nat
  passengers : Int
  totalAmount : Int
  bookingReference : Nat
  paymentReference : Option Nat
  status : String
  paymentStatus : String
  deriving DecidableEq, Repr

structure World where
  routes : List RouteR
  departures : List DepartureR
  bookings : List BookingR
  today : Int
  deriving DecidableEq, Repr

/-- `session.bookingDetails` (the `Session` schema defaults every field to
`null`). -/
structure DraftR where
  origin : Option String
  destination : Option String
  date : Option Int
  passengers : Option Int
  departureId : Option Nat
  fare : Option Int
  totalAmount : Option Int
  deriving DecidableEq, Repr

/-- `session.context` (a Mixed bag; the engine reads each list with
`|| []`, so an untouched field behaves as the empty list). -/
structure Ctx where
  availableOrigins : List String
  availableDestinations : List String
  availableDepartures : List Nat
  currentBookingId : Option Nat
  paymentGatewayReference : Option Nat
  deriving DecidableEq, Repr

/-- A session as the engine sees it.  `currentStep` is kept as a raw string
because `findOneAndUpdate` bypasses the schema enum (the `'menu'` command
really does store the out-of-enum value `'Welcome'`). -/
structure SessionR where
  currentStep : String
  bookingDetails : DraftR
  context : Ctx
  deriving DecidableEq, Repr

def emptyDraft : DraftR := ⟨none, none, none, none, none, none, none⟩

def emptyCtx : Ctx := ⟨[], [], [], none, none⟩

/-- `sessionService.resetSession` (`src/unnamed/part_003` lines 253-261):
`currentStep: 'welcome', bookingDetails: {}, context: {}`. -/
def resetSessionR : SessionR := ⟨"welcome", emptyDraft, emptyCtx⟩

/-- Outcome of the Paystack `transaction/initialize` call: a success carries
`authorization_url` and `reference` (abstracted to numbers); `declined` is a
response whose `data.status` is falsy; `errored` is a thrown request error. -/
inductive PayResult where
  | ok (authorizationUrl : Nat) (reference : Nat)
  | declined
  | errored
  deriving DecidableEq, Repr

/-- Per-message environment: the Paystack outcome and the fresh uuid-derived
booking reference the handler would generate. -/
structure Env where
  pay : PayResult
  freshRef : Nat
  deriving DecidableEq, Repr

/-- One constructor per reply site of `handleIncomingMessage`, carrying the
dynamic data interpolated into the text. -/
inductive Reply where
  | resetAck
  | menuMsg
  | supportMsg
  | welcomeOrigins (origins : List String)
  | noRoutes
  | checkSoon
  | helpSoon
  | welcomeUnrecognized
  | askDestinationList (origin : String) (destinations : List String)
  | noDestinations (origin : String)
  | originUnrecognized (origins : List String)
  | gotDestination (destination : String)
  | destinationUnrecognized (relisted : Option (String × List String))
  | departuresList (departureIds : List Nat)
  | noDeparturesOnDate
  | internalRouteNotFound
  | badDate
  | selectedDeparture (departureId : Nat) (availableSeats : Int)
  | departureUnavailable
  | choiceUnrecognized
  | missingDetailsReset
  | couldNotFindDeparture
  | invalidPassengers (seatsLeft : Int)
  | reviewSummary (origin destination : String) (passengers fare totalAmount : Int)
  | missingCriticalReset
  | soldOutRetry (availableSeats : Int)
  | bookingCreated (bookingReference : Nat) (totalAmount : Int) (authorizationUrl : Nat)
  | paymentInitFailed
  | paymentInitError
  | departureNotFoundReset
  | cancelledOk
  | confirmOrCancelPrompt
  | awaitingPaymentNotice
  | unknownStep
  deriving DecidableEq, Repr

/-- First-occurrence deduplication, modelling `Route.distinct` (the claims
never depend on the order `distinct` returns). -/
def dedupAux : List String → List String → List String
  | [], _ => []
  | x :: xs, seen => if x ∈ seen then dedupAux xs seen else x :: dedupAux xs (x :: seen)

def dedupStr (l : List String) : List String :=
  dedupAux l []

/-- `Route.distinct('origin', { isActive: true })`. -/
def distinctActiveOrigins (w : World) : List String :=
  dedupStr ((w.routes.filter (fun r => r.isActive)).map RouteR.origin)

/-- `Route.distinct('destination', { origin, isActive: true })`. -/
def distinctActiveDestinations (w : World) (origin : String) : List String :=
  dedupStr ((w.routes.filter (fun r => r.isActive && r.origin = origin)).map RouteR.destination)

/-- `Route.findOne({ origin, destination, isActive: true })`. -/
def findRouteActive (w : World) (origin destination : String) : Option RouteR :=
  w.routes.find? (fun r => r.origin = origin && r.destination = destination && r.isActive)

/-- `Departure.findById`. -/
def findDepW (w : World) (i : Nat) : Option DepartureR :=
  w.departures.find? (fun dep => dep.id = i)

/-- Ascending insertion by departure time (`.sort('departureTime')`). -/
def insertByTime (dep : DepartureR) : List DepartureR → List DepartureR
  | [] => [dep]
  | d :: ds =>
      if dep.departureTime < d.departureTime then dep :: d :: ds
      else d :: insertByTime dep ds

def sortByTime : List DepartureR → List DepartureR
  | [] => []
  | d :: ds => insertByTime d (sortByTime ds)

/-- The `Departure.find` query of `case 'ask_date'`: departures of the route
within the selected UTC day, with `availableSeats > 0` and status
`'scheduled'`, ordered by departure time. -/
def departuresForDay (w : World) (routeId : Nat) (day : Int) : List DepartureR :=
  sortByTime (w.departures.filter (fun dep =>
    dep.routeId = routeId &&
    day * msPerDay ≤ dep.departureTime && dep.departureTime < (day + 1) * msPerDay &&
    0 < dep.availableSeats && dep.status = "scheduled"))

/-! ### Per-step handlers

One function per `case` of the `switch (session.currentStep)` in
`handleIncomingMessage` (`src/services/conversationService.js` lines
174-540).  Each takes the freshest session and returns the updated world,
the updated session, and the reply.  Session-store writes
(`updateSessionStep`, `updateBookingDetails`, `updateSessionContext`,
`resetSession`) are field-level merges followed by a refresh in the source,
so they appear here as record updates applied in the source's order. -/

/-- `case 'welcome'` (lines 175-203).  The first comparison against `'1'` is
on the raw message, the keyword comparisons on the lower-cased one. -/
def stepWelcome (w : World) (s : SessionR) (msg : String) : World × SessionR × Reply :=
  let lower := toLowerStr msg
  if msg = "1" || lower = "book a new trip" then
    let origins := distinctActiveOrigins w
    if origins ≠ [] then
      (w, ⟨"ask_origin", s.bookingDetails,
            { s.context with availableOrigins := origins }⟩,
       .welcomeOrigins origins)
    else
      (w, resetSessionR, .noRoutes)
  else if msg = "2" || lower = "check my booking" then
    (w, s, .checkSoon)
  else if msg = "3" || lower = "help & support" then
    (w, s, .helpSoon)
  else
    (w, s, .welcomeUnrecognized)

/-- `case 'ask_origin'` (lines 205-235). -/
def stepAskOrigin (w : World) (s : SessionR) (msg : String) : World × SessionR × Reply :=
  let availableOrigins := s.context.availableOrigins
  match validateChoice msg availableOrigins with
  | some chosenOrigin =>
      let up := toUpperStr chosenOrigin
      let d1 := { s.bookingDetails with origin := some up }
      let destinations := distinctActiveDestinations w up
      if destinations ≠ [] then
        (w, ⟨"ask_destination", d1,
              { s.context with availableDestinations := destinations }⟩,
         .askDestinationList chosenOrigin destinations)
      else
        (w, resetSessionR, .noDestinations chosenOrigin)
  | none =>
      (w, s, .originUnrecognized (distinctActiveOrigins w))

/-- `case 'ask_destination'` (lines 237-259). -/
def stepAskDestination (w : World) (s : SessionR) (msg : String) : World × SessionR × Reply :=
  let availableDestinations := s.context.availableDestinations
  match validateChoice msg availableDestinations with
  | some chosenDestination =>
      let d1 := { s.bookingDetails with destination := some (toUpperStr chosenDestination) }
      (w, ⟨"ask_date", d1, s.context⟩, .gotDestination chosenDestination)
  | none =>
      let relisted :=
        match s.bookingDetails.origin with
        | some currentOrigin =>
            if currentOrigin = "" then none
            else some (currentOrigin, distinctActiveDestinations w currentOrigin)
        | none => none
      (w, s, .destinationUnrecognized relisted)

/-- `case 'ask_date'` (lines 261-323). -/
def stepAskDate (w : World) (s : SessionR) (msg : String) : World × SessionR × Reply :=
  match parseDateInput w.today msg with
  | some parsedDate =>
      let d1 := { s.bookingDetails with date := some parsedDate }
      let routeOpt :=
        match d1.origin, d1.destination with
        | some o, some dst => findRouteActive w o dst
        | _, _ => none
      match routeOpt with
      | some route =>
          let departures := departuresForDay w route.id parsedDate
          if departures ≠ [] then
            (w, ⟨"ask_departure_choice", d1,
                  { s.context with availableDepartures := departures.map DepartureR.id }⟩,
             .departuresList (departures.map DepartureR.id))
          else
            (w, ⟨"ask_date", d1, s.context⟩, .noDeparturesOnDate)
      | none => (w, resetSessionR, .internalRouteNotFound)
  | none => (w, s, .badDate)

/-- `case 'ask_departure_choice'` (lines 325-352). -/
def stepAskDepartureChoice (w : World) (s : SessionR) (msg : String) : World × SessionR × Reply :=
  let availableDepartureIds := s.context.availableDepartures
  let idxOpt : Option Nat :=
    match jsParseInt msg with
    | some n =>
        if 0 ≤ n - 1 && n - 1 < (availableDepartureIds.length : Int) then
          some (n - 1).toNat
        else none
    | none => none
  match idxOpt with
  | some idx =>
      match availableDepartureIds[idx]? with
      | some chosenDepartureId =>
          match findDepW w chosenDepartureId with
          | some chosenDeparture =>
              if 0 < chosenDeparture.availableSeats then
                let d1 := { s.bookingDetails with
                              departureId := some chosenDepartureId,
                              fare := some chosenDeparture.fare }
                (w, ⟨"ask_passengers", d1, s.context⟩,
                 .selectedDeparture chosenDepartureId chosenDeparture.availableSeats)
              else
                (w, s, .departureUnavailable)
          | none => (w, s, .departureUnavailable)
      | none => (w, s, .choiceUnrecognized)
  | none => (w, s, .choiceUnrecognized)

/-- `case 'ask_passengers'` (lines 354-409): essential draft fields must be
truthy or the session resets; the departure is re-read from the ledger and
the input accepted only when it parses to `0 < n ≤ availableSeats`; on
acceptance the total is the re-read fare times the passenger count and the
step advances to `review_booking`; otherwise the user is re-prompted with no
state change. -/
def stepAskPassengers (w : World) (s : SessionR) (msg : String) : World × SessionR × Reply :=
  let numPassengersInput := jsParseInt msg
  match s.bookingDetails.origin, s.bookingDetails.destination, s.bookingDetails.date,
        s.bookingDetails.departureId, s.bookingDetails.fare with
  | some o, some dst, some _, some departureId, some fare =>
      if o = "" || dst = "" || fare = 0 then
        (w, resetSessionR, .missingDetailsReset)
      else
        match findDepW w departureId with
        | some departureToBook =>
            match numPassengersInput with
            | some n =>
                if 0 < n && n ≤ departureToBook.availableSeats then
                  match findDepW w departureId with
                  | some finalDeparture =>
                      let totalAmount := finalDeparture.fare * n
                      let d1 := { s.bookingDetails with
                                    passengers := some n,
                                    totalAmount := some totalAmount }
                      (w, ⟨"review_booking", d1, s.context⟩,
                       .reviewSummary o dst n fare totalAmount)
                  | none => (w, resetSessionR, .couldNotFindDeparture)
                else
                  (w, s, .invalidPassengers departureToBook.availableSeats)
            | none => (w, s, .invalidPassengers departureToBook.availableSeats)
        | none => (w, s, .invalidPassengers 0)
  | _, _, _, _, _ => (w, resetSessionR, .missingDetailsReset)

/-- `case 'review_booking'` (lines 411-526).  On an affirmative reply with a
complete draft, the departure is re-read; `availableSeats < passengers`
aborts with a reset and no mutation; otherwise the Paystack initialization
runs FIRST and only a successful response leads to creating the `Booking`
(`status: 'confirmed'`, `paymentStatus: 'pending'`) and stepping to
`awaiting_payment` — the seat counter is never written in this revision.  A
declined or thrown payment call resets the session with a retryable payment
error and no booking. -/
def stepReviewBooking (waId : String) (w : World) (s : SessionR) (msg : String)
    (env : Env) : World × SessionR × Reply :=
  let lower := toLowerStr msg
  if lower = "yes" || lower = "confirm" then
    match s.bookingDetails.origin, s.bookingDetails.destination, s.bookingDetails.date,
          s.bookingDetails.departureId, s.bookingDetails.passengers,
          s.bookingDetails.fare, s.bookingDetails.totalAmount with
    | some o, some dst, some _, some finalDepartureId, some finalPassengers,
        some finalFare, some finalTotalAmount =>
        if o = "" || dst = "" || finalPassengers = 0 || finalFare = 0 then
          (w, resetSessionR, .missingCriticalReset)
        else
          match findDepW w finalDepartureId with
          | some finalDeparture =>
              if finalDeparture.availableSeats < finalPassengers then
                (w, resetSessionR, .soldOutRetry finalDeparture.availableSeats)
              else
                match env.pay with
                | .ok authorizationUrl reference =>
                    let newBooking : BookingR :=
                      ⟨waId, finalDeparture.id, finalPassengers, finalTotalAmount,
                       env.freshRef, some reference, "confirmed", "pending"⟩
                    ({ w with bookings := w.bookings ++ [newBooking] },
                     ⟨"awaiting_payment", s.bookingDetails,
                       { s.context with
                           currentBookingId := some env.freshRef,
                           paymentGatewayReference := some reference }⟩,
                     .bookingCreated env.freshRef finalTotalAmount authorizationUrl)
                | .declined => (w, resetSessionR, .paymentInitFailed)
                | .errored => (w, resetSessionR, .paymentInitError)
          | none => (w, resetSessionR, .departureNotFoundReset)
    | _, _, _, _, _, _, _ => (w, resetSessionR, .missingCriticalReset)
  else if lower = "no" || lower = "cancel" then
    (w, resetSessionR, .cancelledOk)
  else
    (w, s, .confirmOrCancelPrompt)

/-- `handleIncomingMessage` (`src/services/conversationService.js` lines
127-543): the global commands `'reset'`, `'menu'`, `'support'` are evaluated
before the per-step switch.  `'reset'` resets the session with an
acknowledgement; `'menu'` only sets the step to the out-of-enum string
`'Welcome'` (capital W) and keeps the draft; `'support'` changes nothing.
All other messages are dispatched on `session.currentStep`. -/
def handleMessage (waId : String) (w : World) (s : SessionR) (msg : String)
    (env : Env) : World × SessionR × Reply :=
  let lower := toLowerStr msg
  if lower = "reset" then
    (w, resetSessionR, .resetAck)
  else if lower = "menu" then
    (w, { s with currentStep := "Welcome" }, .menuMsg)
  else if lower = "support" then
    (w, s, .supportMsg)
  else if s.currentStep = "welcome" then
    stepWelcome w s msg
  else if s.currentStep = "ask_origin" then
    stepAskOrigin w s msg
  else if s.currentStep = "ask_destination" then
    stepAskDestination w s msg
  else if s.currentStep = "ask_date" then
    stepAskDate w s msg
  else if s.currentStep = "ask_departure_choice" then
    stepAskDepartureChoice w s msg
  else if s.currentStep = "ask_passengers" then
    stepAskPassengers w s msg
  else if s.currentStep = "review_booking" then
    stepReviewBooking waId w s msg env
  else if s.currentStep = "awaiting_payment" then
    (w, s, .awaitingPaymentNotice)
  else
    (w, s, .unknownStep)

/-! ### Concrete sample data

One active route UYO→LAGOS with a single scheduled departure (id 1, 5 seats,
fare 10000), as in the specification's end-to-end scenario; used by the
concrete counterexamples and witnesses below. -/

def routeUL : RouteR := ⟨1, "UYO", "LAGOS", true⟩

def depA : DepartureR := ⟨1, 1, 20250 * msPerDay + 28800000, 5, 10000, "scheduled"⟩

def sampleWorld : World := ⟨[routeUL], [depA], [], 20249⟩

/-- A fully accumulated booking draft (2 passengers at fare 10000). -/
def draftFull : DraftR :=
  ⟨some "UYO", some "LAGOS", some 20250, some 2, some 1, some 10000, some 20000⟩

/-- The draft as it stands entering `ask_passengers` (no passenger count or
total yet). -/
def draftSelected : DraftR :=
  ⟨some "UYO", some "LAGOS", some 20250, none, some 1, some 10000, none⟩

/-- The draft as it stands entering `ask_departure_choice`. -/
def draftRouted : DraftR :=
  ⟨some "UYO", some "LAGOS", some 20250, none, none, none, none⟩

def ctxDeps : Ctx := ⟨[], [], [1], none, none⟩

def sessionChoice : SessionR := ⟨"ask_departure_choice", draftRouted, ctxDeps⟩

def sessionPassengers : SessionR := ⟨"ask_passengers", draftSelected, ctxDeps⟩

def sessionReview : SessionR := ⟨"review_booking", draftFull, ctxDeps⟩

def sessionAwait : SessionR := ⟨"awaiting_payment", draftFull, ctxDeps⟩

def envOk : Env := ⟨.ok 7 99, 42⟩

def envDeclined : Env := ⟨.declined, 42⟩

/-- The same world after concurrent demand dropped departure 1 to a single
remaining seat. -/
def depLow : DepartureR := ⟨1, 1, 20250 * msPerDay + 28800000, 1, 10000, "scheduled"⟩

def lowWorld : World := ⟨[routeUL], [depLow], [], 20249⟩

/-- A ledger with one departure of capacity 5, for the direct-write
revisions. -/
def ledger0 : LedgerWorld := ⟨[⟨1, 5⟩], []⟩

/-- A `part_004` draft requesting all 5 seats (validated as available back at
`ask_passengers`, before any decrement). -/
def draft4five : Draft4 := ⟨some 1, some 5, some 50000⟩

/-- A `part_005` draft requesting 2 of the 5 seats. -/
def draft5two : Draft5 :=
  ⟨some "UYO", some "LAGOS", some 20250, some 1, some 2, some 10000, some 20000⟩

/-! ## Claim theorems -/

/-- C5, counterexample.  The claim says text match is attempted first and
takes precedence over the numeric match.  In `validateChoice` the numeric
match is attempted first: with options `["2", "1"]` (an option that itself
looks numeric — exactly the ambiguity the spec discusses) the input `"1"`
resolves to `"2"` (1-based index 1), while the spec's text-first algorithm
would resolve it to the exact text match `"1"`. -/
theorem C5_counterexample :
    validateChoice "1" ["2", "1"] = some "2" ∧
    validateChoiceSpecOrder "1" ["2", "1"] = some "1" ∧
    validateChoice "1" ["2", "1"] ≠ validateChoiceSpecOrder "1" ["2", "1"] := by
  decide

/-- C5, amended: choice resolution is total and deterministic, but the
1-based numeric index is attempted FIRST and only if the input does not
parse to an in-range index is the exact case-insensitive text match
attempted (numeric precedence, the reverse of the claim); the four concrete
resolutions are as stated. -/
theorem C5_amended_numeric_precedence :
    (∀ (inp : String) (opts : List String) (n : Int),
        jsParseInt (toLowerStr (trimStr inp)) = some n → 0 < n →
        n ≤ (opts.length : Int) →
        validateChoice inp opts = opts[(n - 1).toNat]?) ∧
    (∀ (inp : String) (opts : List String),
        (∀ n : Int, jsParseInt (toLowerStr (trimStr inp)) = some n →
            ¬(0 < n ∧ n ≤ (opts.length : Int))) →
        validateChoice inp opts =
          opts.find? (fun o => toLowerStr o = toLowerStr (trimStr inp))) ∧
    validateChoice "1" ["LAGOS", "ABUJA"] = some "LAGOS" ∧
    validateChoice "abuja" ["LAGOS", "ABUJA"] = some "ABUJA" ∧
    validateChoice "3" ["LAGOS", "ABUJA"] = none ∧
    validateChoice "kano" ["LAGOS", "ABUJA"] = none := by
  refine ⟨?_, ?_, by decide, by decide, by decide, by decide⟩
  · intro inp opts n hp h1 h2
    have hlt : (n - 1).toNat < opts.length := by omega
    unfold validateChoice
    dsimp only
    rw [hp]
    have h12 : (decide (0 < n) && decide (n ≤ (opts.length : Int))) = true := by
      simp [h1, h2]
    dsimp only
    rw [h12]
    simp only [if_true]
    have hlt2 : n.toNat - 1 < opts.length := by omega
    simp only [List.getElem?_eq_getElem hlt, List.getElem?_eq_getElem hlt2]
  · intro inp opts hno
    unfold validateChoice
    dsimp only
    cases hp : jsParseInt (toLowerStr (trimStr inp)) with
    | none => rfl
    | some n =>
        have hnn := hno n hp
        have hcond : (decide (0 < n) && decide (n ≤ (opts.length : Int))) = false := by
          rcases Decidable.em (0 < n) with h1 | h1
          · rcases Decidable.em (n ≤ (opts.length : Int)) with h2 | h2
            · exact absurd ⟨h1, h2⟩ hnn
            · simp [h2]
          · simp [h1]
        dsimp only
        rw [hcond]
        rfl

/-- C5, witness for the amended theorem at a concrete instance: input `"1"`
with options `["LAGOS", "ABUJA"]` takes the numeric branch. -/
theorem C5_amended_witness :
    validateChoice "1" ["LAGOS", "ABUJA"] = ["LAGOS", "ABUJA"][(1 - 1 : Int).toNat]? :=
  C5_amended_numeric_precedence.1 "1" ["LAGOS", "ABUJA"] 1 (by decide) (by decide) (by decide)

/-- C6: `parseDateInput` rejects every result strictly before the reference
UTC midnight; `"2025-02-30"` is rejected for any reference day (calendar
overflow caught by the round-trip check); `"tomorrow"` relative to
2025-06-10 is 2025-06-11; `"2024-01-01"` relative to any later reference is
rejected as past; `next <weekday>` rolls a full week when the weekday is
today or earlier in the week (2025-06-10 is a Tuesday: `"next tuesday"` is
2025-06-17, `"next friday"` is 2025-06-13); non-strict or unrecognized
inputs are rejected. -/
theorem C6_date_parsing :
    (∀ (today : Int) (s : String) (d : Int),
        parseDateInput today s = some d → today ≤ d) ∧
    (∀ today : Int, parseDateInput today "2025-02-30" = none) ∧
    parseDateInput (daysFromCivil 2025 6 10) "tomorrow" = some (daysFromCivil 2025 6 11) ∧
    (∀ today : Int, daysFromCivil 2024 1 1 < today →
        parseDateInput today "2024-01-01" = none) ∧
    parseDateInput (daysFromCivil 2025 6 10) "next tuesday" = some (daysFromCivil 2025 6 17) ∧
    parseDateInput (daysFromCivil 2025 6 10) "next friday" = some (daysFromCivil 2025 6 13) ∧
    (∀ today : Int, parseDateInput today "2025-6-10" = none) ∧
    (∀ today : Int, parseDateInput today "someday" = none) := by
  refine ⟨?_, fun _ => rfl, by decide, ?_, by decide, by decide, fun _ => rfl, fun _ => rfl⟩
  · intro today s d h
    unfold parseDateInput at h
    split at h
    · split at h
      · exact absurd h (by simp)
      · rename_i d' heq hlt
        cases h
        omega
    · exact absurd h (by simp)
  · intro today h
    have hraw : parseDateRaw today "2024-01-01" = some 19723 := rfl
    have h2 : daysFromCivil 2024 1 1 = 19723 := by decide
    unfold parseDateInput
    rw [hraw]
    simp only [h2] at h
    simp [h]

/-- C6, witness: the past-rejection conjunct applied at the concrete
reference day 2025-06-10, and the lower-bound conjunct applied to the
concrete `"tomorrow"` parse. -/
theorem C6_witness :
    parseDateInput (daysFromCivil 2025 6 10) "2024-01-01" = none ∧
    daysFromCivil 2025 6 10 ≤ daysFromCivil 2025 6 11 :=
  ⟨C6_date_parsing.2.2.2.1 (daysFromCivil 2025 6 10) (by decide),
   C6_date_parsing.1 (daysFromCivil 2025 6 10) "tomorrow" (daysFromCivil 2025 6 11)
     C6_date_parsing.2.2.1⟩

/-- C7, counterexample.  In `src/services/conversationService.js` the
message `'hi'` is NOT a global command: sent in the `awaiting_payment` state
it leaves the session untouched (step still `awaiting_payment`, not
`welcome`) and only returns the holding notice.  Moreover `'menu'` does not
reset the session: it keeps the whole booking draft and stores the
out-of-enum step string `'Welcome'`. -/
theorem C7_counterexample :
    (handleMessage "u1" sampleWorld sessionAwait "hi" envOk).2.1 = sessionAwait ∧
    sessionAwait.currentStep ≠ "welcome" ∧
    (handleMessage "u1" sampleWorld sessionAwait "hi" envOk).2.2 = Reply.awaitingPaymentNotice ∧
    (handleMessage "u1" sampleWorld sessionAwait "menu" envOk).2.1 =
      ⟨"Welcome", draftFull, ctxDeps⟩ ∧
    (⟨"Welcome", draftFull, ctxDeps⟩ : SessionR) ≠ resetSessionR := by
  decide

/-- C7, amended: in `src/services/conversationService.js` the commands
evaluated before any step-specific logic are `'reset'`, `'menu'` and
`'support'` (each matched on the lower-cased message, in every dialogue
state): `'reset'` resets the session to the `welcome` step with an empty
draft and context and an acknowledgement; `'menu'` only sets the step to the
out-of-enum string `'Welcome'`, keeping draft and context; `'support'`
changes nothing.  `'hi'`, `'start'` and `'cancel'` are not global commands
in this revision. -/
theorem C7_amended_global_commands :
    ∀ (waId : String) (w : World) (s : SessionR) (env : Env),
      handleMessage waId w s "reset" env = (w, resetSessionR, Reply.resetAck) ∧
      handleMessage waId w s "menu" env =
        (w, { s with currentStep := "Welcome" }, Reply.menuMsg) ∧
      handleMessage waId w s "support" env = (w, s, Reply.supportMsg) ∧
      resetSessionR = ⟨"welcome", emptyDraft, emptyCtx⟩ := by
  intro waId w s env
  exact ⟨rfl, rfl, rfl, rfl⟩

/-- C8: handling the global `'reset'` command from any session state yields
the `welcome` step with an empty booking draft and empty context, leaves the
world untouched, and handling `'reset'` again from the resulting state
yields exactly the same session state (idempotence). -/
theorem C8_reset_idempotent :
    ∀ (waId : String) (w : World) (s : SessionR) (env : Env),
      handleMessage waId w s "reset" env = (w, resetSessionR, Reply.resetAck) ∧
      resetSessionR.currentStep = "welcome" ∧
      resetSessionR.bookingDetails = emptyDraft ∧
      resetSessionR.context = emptyCtx ∧
      (handleMessage waId (handleMessage waId w s "reset" env).1
          (handleMessage waId w s "reset" env).2.1 "reset" env).2.1 =
        (handleMessage waId w s "reset" env).2.1 := by
  intro waId w s env
  exact ⟨rfl, rfl, rfl, rfl, rfl⟩

/-- C10 (implicit): numeric inputs are parsed with JavaScript `parseInt`,
which reads the leading digits and ignores the rest: `"2 adults"` is
accepted at `ask_passengers` as 2 passengers (advancing to
`review_booking`), and `"1st"` selects departure number 1 at
`ask_departure_choice` (advancing to `ask_passengers`), rather than being
rejected as non-numeric. -/
theorem C10_parseInt_lenient :
    jsParseInt "2 adults" = some 2 ∧
    jsParseInt "1st" = some 1 ∧
    (handleMessage "u1" sampleWorld sessionPassengers "2 adults" envOk).2.1.currentStep
      = "review_booking" ∧
    (handleMessage "u1" sampleWorld sessionPassengers "2 adults" envOk).2.1.bookingDetails.passengers
      = some 2 ∧
    (handleMessage "u1" sampleWorld sessionChoice "1st" envOk).2.1.currentStep
      = "ask_passengers" ∧
    (handleMessage "u1" sampleWorld sessionChoice "1st" envOk).2.1.bookingDetails.departureId
      = some 1 := by
  decide

/-- C4: when the user confirms at `review_booking` (affirmative token,
complete draft) and the re-read departure has fewer remaining seats than the
requested passenger count, the transaction aborts with no change to the
world (no departure mutated, no booking created), the sold-out conflict is
reported with the current seat count, and the session is reset to the
`welcome` state. -/
theorem C4_capacity_conflict_abort :
    ∀ (waId : String) (w : World) (s : SessionR) (msg : String) (env : Env)
      (o dst : String) (dt : Int) (depId : Nat) (p fare tot : Int) (dep : DepartureR),
      s.currentStep = "review_booking" →
      (toLowerStr msg = "yes" ∨ toLowerStr msg = "confirm") →
      s.bookingDetails.origin = some o → o ≠ "" →
      s.bookingDetails.destination = some dst → dst ≠ "" →
      s.bookingDetails.date = some dt →
      s.bookingDetails.departureId = some depId →
      s.bookingDetails.passengers = some p → p ≠ 0 →
      s.bookingDetails.fare = some fare → fare ≠ 0 →
      s.bookingDetails.totalAmount = some tot →
      findDepW w depId = some dep →
      dep.availableSeats < p →
      handleMessage waId w s msg env =
        (w, resetSessionR, Reply.soldOutRetry dep.availableSeats) ∧
      resetSessionR.currentStep = "welcome" := by
  intro waId w s msg env o dst dt depId p fare tot dep
  intro hstep hyes ho ho' hdst hdst' hdate hdep hp hp' hfare hfare' htot hfind hlt
  refine ⟨?_, rfl⟩
  have hmsg : toLowerStr msg = "yes" ∨ toLowerStr msg = "confirm" := hyes
  rcases hmsg with h | h <;>
    simp only [handleMessage, stepReviewBooking, h, hstep, ho, hdst, hdate, hdep, hp,
      hfare, htot, hfind, ho', hdst', hp', hfare', hlt, reduceCtorEq, String.reduceEq,
      if_false, if_true, ite_true, ite_false, Bool.or_eq_true, decide_eq_true_eq,
      or_self, or_false, false_or, if_neg, not_false_eq_true]

/-- C4, witness: the user's draft asks for 2 seats but only 1 remains; the
confirmation aborts, the world is untouched, and the session resets. -/
theorem C4_witness :
    handleMessage "u1" lowWorld sessionReview "yes" envOk =
      (lowWorld, resetSessionR, Reply.soldOutRetry depLow.availableSeats) ∧
    resetSessionR.currentStep = "welcome" :=
  C4_capacity_conflict_abort "u1" lowWorld sessionReview "yes" envOk
    "UYO" "LAGOS" 20250 1 2 10000 20000 depLow
    rfl (Or.inl rfl) rfl (by decide) rfl (by decide) rfl rfl rfl (by decide)
    rfl (by decide) rfl rfl (by decide)

/-- C9: at `ask_passengers` (with the essential draft fields present and the
chosen departure existing in the ledger), the input is accepted exactly when
it parses to a positive integer no greater than the departure's remaining
seats as re-read from the ledger at this step; on acceptance the passenger
count and the total (the re-read fare times the count) are persisted into
the draft, a review summary is rendered, and the step becomes
`review_booking`; otherwise the user is re-prompted with the current seat
count and nothing changes.  (Global commands are dispatched before this
step, so they are excluded by hypothesis.) -/
theorem C9_ask_passengers_iff :
    ∀ (waId : String) (w : World) (s : SessionR) (msg : String) (env : Env)
      (o dst : String) (dt : Int) (depId : Nat) (fare : Int) (dep : DepartureR),
      s.currentStep = "ask_passengers" →
      toLowerStr msg ≠ "reset" → toLowerStr msg ≠ "menu" → toLowerStr msg ≠ "support" →
      s.bookingDetails.origin = some o → o ≠ "" →
      s.bookingDetails.destination = some dst → dst ≠ "" →
      s.bookingDetails.date = some dt →
      s.bookingDetails.departureId = some depId →
      s.bookingDetails.fare = some fare → fare ≠ 0 →
      findDepW w depId = some dep →
      (∀ n : Int, jsParseInt msg = some n → 0 < n → n ≤ dep.availableSeats →
        handleMessage waId w s msg env =
          (w, ⟨"review_booking",
                { s.bookingDetails with passengers := some n,
                                        totalAmount := some (dep.fare * n) },
                s.context⟩,
           Reply.reviewSummary o dst n fare (dep.fare * n))) ∧
      ((∀ n : Int, jsParseInt msg = some n → ¬(0 < n ∧ n ≤ dep.availableSeats)) →
        handleMessage waId w s msg env = (w, s, Reply.invalidPassengers dep.availableSeats)) := by
  intro waId w s msg env o dst dt depId fare dep
  intro hstep hr hm hsup ho ho' hdst hdst' hdate hdep hfare hfare' hfind
  constructor
  · intro n hn h1 h2
    simp only [handleMessage, stepAskPassengers, hstep, ho, hdst, hdate, hdep, hfare,
      hfind, hn, String.reduceEq]
    simp [hr, hm, hsup, ho', hdst', hfare', h1, h2]
  · intro hno
    cases hn : jsParseInt msg with
    | none =>
        simp only [handleMessage, stepAskPassengers, hstep, ho, hdst, hdate, hdep, hfare,
          hfind, hn, String.reduceEq]
        simp [hr, hm, hsup, ho', hdst', hfare']
    | some n =>
        have hnn := hno n hn
        have hcond : (decide (0 < n) && decide (n ≤ dep.availableSeats)) = false := by
          rcases Decidable.em (0 < n) with h1 | h1
          · rcases Decidable.em (n ≤ dep.availableSeats) with h2 | h2
            · exact absurd ⟨h1, h2⟩ hnn
            · simp [h2]
          · simp [h1]
        simp only [handleMessage, stepAskPassengers, hstep, ho, hdst, hdate, hdep, hfare,
          hfind, hn, String.reduceEq]
        simp [hr, hm, hsup, ho', hdst', hfare', hcond]

/-- C9, witness: in the sample world (5 seats, fare 10000) the input `"2"`
is accepted, persisting 2 passengers and total 20000 and advancing to
`review_booking`. -/
theorem C9_witness :
    handleMessage "u1" sampleWorld sessionPassengers "2" envOk =
      (sampleWorld,
       ⟨"review_booking",
         { sessionPassengers.bookingDetails with passengers := some 2,
                                                 totalAmount := some (depA.fare * 2) },
         sessionPassengers.context⟩,
       Reply.reviewSummary "UYO" "LAGOS" 2 10000 (depA.fare * 2)) :=
  (C9_ask_passengers_iff "u1" sampleWorld sessionPassengers "2" envOk
      "UYO" "LAGOS" 20250 1 10000 depA
      rfl (by decide) (by decide) (by decide) rfl (by decide) rfl (by decide)
      rfl rfl rfl (by decide) rfl).1
    2 rfl (by decide) (by decide)

/-- C3, counterexample.  In `src/services/conversationService.js` the
payment-link request runs BEFORE the booking is created: when the Paystack
initialization is declined after a confirmed affirmative input with
sufficient seats, NO booking is recorded at all (the bookings collection is
left empty, so no booking "remains recorded with payment status pending"),
and the session is reset; only the retryable-payment-issue part of the claim
holds. -/
theorem C3_counterexample :
    handleMessage "u1" sampleWorld sessionReview "yes" envDeclined =
      (sampleWorld, resetSessionR, Reply.paymentInitFailed) ∧
    (handleMessage "u1" sampleWorld sessionReview "yes" envDeclined).1.bookings = [] ∧
    ¬ ∃ b ∈ (handleMessage "u1" sampleWorld sessionReview "yes" envDeclined).1.bookings,
        b.paymentStatus = "pending" := by
  decide

/-- C3, amended: the payment-link request precedes booking creation, so if
it fails (declined response or thrown error) after confirmation with
sufficient seats, no Booking has been created, the world is left completely
unchanged (in particular no seat decrement exists to reverse — this revision
never decrements seats), the failure is reported as a retryable payment
issue, and the session is reset. -/
theorem C3_amended_payment_failure :
    ∀ (waId : String) (w : World) (s : SessionR) (msg : String) (env : Env)
      (o dst : String) (dt : Int) (depId : Nat) (p fare tot : Int) (dep : DepartureR),
      s.currentStep = "review_booking" →
      (toLowerStr msg = "yes" ∨ toLowerStr msg = "confirm") →
      s.bookingDetails.origin = some o → o ≠ "" →
      s.bookingDetails.destination = some dst → dst ≠ "" →
      s.bookingDetails.date = some dt →
      s.bookingDetails.departureId = some depId →
      s.bookingDetails.passengers = some p → p ≠ 0 →
      s.bookingDetails.fare = some fare → fare ≠ 0 →
      s.bookingDetails.totalAmount = some tot →
      findDepW w depId = some dep →
      ¬(dep.availableSeats < p) →
      (env.pay = PayResult.declined →
        handleMessage waId w s msg env = (w, resetSessionR, Reply.paymentInitFailed)) ∧
      (env.pay = PayResult.errored →
        handleMessage waId w s msg env = (w, resetSessionR, Reply.paymentInitError)) := by
  intro waId w s msg env o dst dt depId p fare tot dep
  intro hstep hyes ho ho' hdst hdst' hdate hdep hp hp' hfare hfare' htot hfind hge
  constructor <;> intro hpay <;> rcases hyes with h | h <;>
    simp only [handleMessage, stepReviewBooking, h, hstep, ho, hdst, hdate, hdep, hp,
      hfare, htot, hfind, hpay, String.reduceEq] <;>
    simp [ho', hdst', hp', hfare', hge]

/-- C3, witness for the amended theorem: the declined-payment case at the
concrete sample state. -/
theorem C3_amended_witness :
    handleMessage "u1" sampleWorld sessionReview "yes" envDeclined =
      (sampleWorld, resetSessionR, Reply.paymentInitFailed) :=
  (C3_amended_payment_failure "u1" sampleWorld sessionReview "yes" envDeclined
      "UYO" "LAGOS" 20250 1 2 10000 20000 depA
      rfl (Or.inl rfl) rfl (by decide) rfl (by decide) rfl rfl rfl (by decide)
      rfl (by decide) rfl rfl (by decide)).1 rfl

/-! ### Helper lemmas about the seat ledger -/

theorem findDepL_updSeats (ds : List DepartureL) (i : Nat) (delta : Int) (j : Nat) :
    findDepL (updSeats ds i delta) j =
      if j = i then
        (findDepL ds i).map (fun d => { d with availableSeats := d.availableSeats + delta })
      else
        findDepL ds j := by
  induction ds with
  | nil =>
      simp only [updSeats, findDepL, Option.map_none']
      split <;> rfl
  | cons d ds ih =>
      by_cases hdi : d.id = i
      · by_cases hji : j = i
        · subst hji
          simp [updSeats, findDepL, hdi]
        · have hdj : ¬ d.id = j := fun hh => hji (by rw [← hh, hdi])
          have hij : ¬ i = j := fun hh => hji hh.symm
          simp [updSeats, findDepL, hdi, hji, hdj, hij]
      · by_cases hdj : d.id = j
        · have hji : ¬ j = i := fun hh => hdi (hh ▸ hdj)
          simp [updSeats, findDepL, hdi, hdj, hji]
        · simp [updSeats, findDepL, hdi, hdj, ih]

theorem seatsOfL_updSeats (ds : List DepartureL) (i : Nat) (delta : Int) (j : Nat) :
    seatsOfL (updSeats ds i delta) j =
      if j = i then (seatsOfL ds i).map (fun s => s + delta) else seatsOfL ds j := by
  unfold seatsOfL
  rw [findDepL_updSeats]
  split
  · cases findDepL ds i <;> rfl
  · rfl

theorem updSeats_mem {ds : List DepartureL} {i : Nat} {delta : Int} {d' : DepartureL}
    (h : d' ∈ updSeats ds i delta) :
    d' ∈ ds ∨ ∃ d, findDepL ds i = some d ∧
      d' = { d with availableSeats := d.availableSeats + delta } := by
  induction ds with
  | nil => exact absurd h (by simp [updSeats])
  | cons d ds ih =>
      by_cases hdi : d.id = i
      · simp only [updSeats, hdi, ite_true] at h
        rcases List.mem_cons.mp h with h1 | h1
        · exact Or.inr ⟨d, by simp [findDepL, hdi], by rw [hdi]; exact h1⟩
        · exact Or.inl (List.mem_cons_of_mem _ h1)
      · simp only [updSeats, hdi, ite_false] at h
        rcases List.mem_cons.mp h with h1 | h1
        · exact Or.inl (h1 ▸ List.mem_cons_self _ _)
        · rcases ih h1 with h2 | ⟨dd, hdd, hdd'⟩
          · exact Or.inl (List.mem_cons_of_mem _ h2)
          · exact Or.inr ⟨dd, by simpa [findDepL, hdi] using hdd, hdd'⟩

theorem sumPassengers_append (bs : List BookingL) (b : BookingL) (i : Nat) :
    sumPassengers (bs ++ [b]) i =
      sumPassengers bs i + (if b.departure = i then b.passengers else 0) := by
  induction bs with
  | nil => simp [sumPassengers]
  | cons x xs ih =>
      simp only [List.cons_append, sumPassengers, List.append_eq, ih]
      ring

/-- Case analysis of one `part_005` confirmation attempt: either the ledger
is untouched, or the draft named an existing departure with enough seats and
the attempt appended exactly one confirmed booking while subtracting its
passenger count from that departure. -/
theorem confirm5_effect (w : LedgerWorld) (d : Draft5) :
    (reviewConfirm5 w d).1 = w ∨
    ∃ depId p tot s,
      d.departureId = some depId ∧ d.passengers = some p ∧ d.totalAmount = some tot ∧
      seatsOfL w.departures depId = some s ∧ p ≤ s ∧
      (reviewConfirm5 w d).1 =
        ⟨updSeats w.departures depId (-p),
         w.bookings ++ [⟨depId, p, tot, "confirmed", "pending"⟩]⟩ := by
  unfold reviewConfirm5
  split
  · rename_i o dst dt depId p fr tot ho hdst hdt hdep hp hfr htot
    split
    · exact Or.inl rfl
    · split
      · rename_i dep hfind
        split
        · exact Or.inl rfl
        · rename_i hge
          exact Or.inr ⟨depId, p, tot, dep.availableSeats,
            hdep, hp, htot, by simp [seatsOfL, hfind], by omega, rfl⟩
      · exact Or.inl rfl
  all_goals exact Or.inl rfl

/-- The current engine's `review_booking` case never writes a departure
document: whatever branch is taken, the departure collection is returned
unchanged. -/
theorem stepReviewBooking_world_departures
    (waId : String) (w : World) (s : SessionR) (msg : String) (env : Env) :
    ((stepReviewBooking waId w s msg env).1).departures = w.departures := by
  unfold stepReviewBooking
  dsimp only
  repeat' split
  all_goals rfl

/-- C2, counterexample.  A confirmed affirmative input at `review_booking`
in `src/services/conversationService.js` with a successful payment call
creates the `Booking` while the departure collection is bit-for-bit
unchanged — departure 1 still shows all 5 seats — so booking creation is NOT
preceded by any seat decrement, let alone a compare-and-swap. -/
theorem C2_counterexample :
    (handleMessage "u1" sampleWorld sessionReview "yes" envOk).1.bookings =
      [⟨"u1", 1, 2, 20000, 42, some 99, "confirmed", "pending"⟩] ∧
    (handleMessage "u1" sampleWorld sessionReview "yes" envOk).1.departures =
      sampleWorld.departures ∧
    findDepW (handleMessage "u1" sampleWorld sessionReview "yes" envOk).1 1 = some depA ∧
    depA.availableSeats = 5 := by
  decide

/-- C2, amended: in the current revision the confirmation transaction never
decrements seats at all (the departure collection is invariant under every
`review_booking` message), and the Booking is created only after the
payment call succeeds; in the `part_005` revision, whenever a confirmation
attempt creates a booking, the draft named an existing departure whose
re-read seat count was at least the passenger count, and that count was
reduced by exactly the passenger count in the same attempt — but by an
unconditional read-modify-write after the booking was saved, not by a
compare-and-swap. -/
theorem C2_amended_decrement_discipline :
    (∀ (waId : String) (w : World) (s : SessionR) (msg : String) (env : Env),
        s.currentStep = "review_booking" →
        ((handleMessage waId w s msg env).1).departures = w.departures) ∧
    (∀ (w : LedgerWorld) (d : Draft5),
        (reviewConfirm5 w d).1.bookings ≠ w.bookings →
        ∃ depId p tot s,
          d.departureId = some depId ∧ d.passengers = some p ∧ d.totalAmount = some tot ∧
          seatsOfL w.departures depId = some s ∧ p ≤ s ∧
          (reviewConfirm5 w d).1.departures = updSeats w.departures depId (-p) ∧
          seatsOfL (reviewConfirm5 w d).1.departures depId = some (s - p) ∧
          (reviewConfirm5 w d).1.bookings =
            w.bookings ++ [⟨depId, p, tot, "confirmed", "pending"⟩]) := by
  constructor
  · intro waId w s msg env hstep
    unfold handleMessage
    dsimp only
    split
    · rfl
    · split
      · rfl
      · split
        · rfl
        · simp only [hstep, String.reduceEq, ite_false]
          exact stepReviewBooking_world_departures waId w s msg env
  · intro w d hne
    rcases confirm5_effect w d with h | ⟨depId, p, tot, s0, h1, h2, h3, h4, h5, h6⟩
    · exact absurd (by rw [h]) hne
    · refine ⟨depId, p, tot, s0, h1, h2, h3, h4, h5, by rw [h6], ?_, by rw [h6]⟩
      rw [h6]
      show seatsOfL (updSeats w.departures depId (-p)) depId = some (s0 - p)
      rw [seatsOfL_updSeats, if_pos rfl, h4]
      simp [sub_eq_add_neg]

/-- C2, witness for the amended theorem: a `part_005` confirmation of 2
seats against a 5-seat departure creates the booking and reduces the seat
count to 3 in the same attempt. -/
theorem C2_amended_witness :
    ∃ depId p tot s,
      draft5two.departureId = some depId ∧ draft5two.passengers = some p ∧
      draft5two.totalAmount = some tot ∧
      seatsOfL ledger0.departures depId = some s ∧ p ≤ s ∧
      (reviewConfirm5 ledger0 draft5two).1.departures =
        updSeats ledger0.departures depId (-p) ∧
      seatsOfL (reviewConfirm5 ledger0 draft5two).1.departures depId = some (s - p) ∧
      (reviewConfirm5 ledger0 draft5two).1.bookings =
        ledger0.bookings ++ [⟨depId, p, tot, "confirmed", "pending"⟩] :=
  C2_amended_decrement_discipline.2 ledger0 draft5two (by decide)

theorem findDepL_mem {ds : List DepartureL} {i : Nat} {dep : DepartureL}
    (h : findDepL ds i = some dep) : dep ∈ ds := by
  induction ds with
  | nil => simp [findDepL] at h
  | cons d ds ih =>
      by_cases hdi : d.id = i
      · simp only [findDepL, hdi, ite_true, Option.some.injEq] at h
        exact h ▸ List.mem_cons_self d ds
      · simp only [findDepL, hdi, ite_false] at h
        exact List.mem_cons_of_mem _ (ih h)

/-- One `part_005` confirmation attempt preserves nonnegative seat counts
and changes each departure's count by exactly the passengers of the bookings
it appends against it. -/
theorem confirm5_step_invariant (w : LedgerWorld) (d : Draft5)
    (hpos : ∀ dep ∈ w.departures, 0 ≤ dep.availableSeats) :
    (∀ dep ∈ (reviewConfirm5 w d).1.departures, 0 ≤ dep.availableSeats) ∧
    (∀ i s0, seatsOfL w.departures i = some s0 →
        ∃ s1, seatsOfL (reviewConfirm5 w d).1.departures i = some s1 ∧
          s1 + (sumPassengers (reviewConfirm5 w d).1.bookings i
                - sumPassengers w.bookings i) = s0) := by
  rcases confirm5_effect w d with h | ⟨depId, p, tot, s, h1, h2, h3, h4, h5, h6⟩
  · rw [h]
    exact ⟨hpos, fun i s0 h0 => ⟨s0, h0, by ring⟩⟩
  · rw [h6]
    constructor
    · intro dep' hmem
      rcases updSeats_mem hmem with hin | ⟨d0, hf0, heq⟩
      · exact hpos dep' hin
      · have hd0 : d0.availableSeats = s := by
          unfold seatsOfL at h4
          rw [hf0] at h4
          simpa using h4
        subst heq
        show 0 ≤ d0.availableSeats + -p
        omega
    · intro i s0 h0
      rw [seatsOfL_updSeats, sumPassengers_append]
      by_cases hi : i = depId
      · subst hi
        rw [if_pos rfl, h0]
        refine ⟨s0 + -p, rfl, ?_⟩
        have hb : (⟨i, p, tot, "confirmed", "pending"⟩ : BookingL).departure = i := rfl
        rw [if_pos hb]
        ring
      · rw [if_neg hi]
        refine ⟨s0, h0, ?_⟩
        have hb : ¬ (⟨depId, p, tot, "confirmed", "pending"⟩ : BookingL).departure = i :=
          fun hh => hi (by exact hh.symm)
        rw [if_neg hb]
        ring

/-- The invariant carried through a whole sequence of `part_005`
confirmation attempts. -/
theorem runConfirms5_invariant :
    ∀ (ds : List Draft5) (w : LedgerWorld),
      (∀ dep ∈ w.departures, 0 ≤ dep.availableSeats) →
      (∀ dep ∈ (runConfirms5 w ds).departures, 0 ≤ dep.availableSeats) ∧
      (∀ i s0, seatsOfL w.departures i = some s0 →
          ∃ s1, seatsOfL (runConfirms5 w ds).departures i = some s1 ∧
            s1 + (sumPassengers (runConfirms5 w ds).bookings i
                  - sumPassengers w.bookings i) = s0) := by
  intro ds
  induction ds with
  | nil =>
      intro w hpos
      exact ⟨hpos, fun i s0 h0 => ⟨s0, h0, by simp [runConfirms5]⟩⟩
  | cons d ds ih =>
      intro w hpos
      have hstep := confirm5_step_invariant w d hpos
      have hih := ih (reviewConfirm5 w d).1 hstep.1
      constructor
      · simpa [runConfirms5] using hih.1
      · intro i s0 h0
        rcases hstep.2 i s0 h0 with ⟨sMid, hMid, hrel⟩
        rcases hih.2 i sMid hMid with ⟨s1, hS1, hrel2⟩
        refine ⟨s1, by simpa [runConfirms5] using hS1, ?_⟩
        show s1 + (sumPassengers (runConfirms5 (reviewConfirm5 w d).1 ds).bookings i
              - sumPassengers w.bookings i) = s0
        omega

/-- C1, counterexample.  In the `part_004` revision the confirmation does
not re-check availability and decrements unconditionally: two sequential
confirmations of 5 passengers each against a departure with 5 seats (both
drafts were validated back at `ask_passengers`, before any decrement) drive
`availableSeats` to -5 and record 10 successful passengers against an
original capacity of 5. -/
theorem C1_counterexample :
    seatsOfL ledger0.departures 1 = some 5 ∧
    seatsOfL (reviewConfirm4 (reviewConfirm4 ledger0 draft4five).1 draft4five).1.departures 1 =
      some (-5) ∧
    sumPassengers
      (reviewConfirm4 (reviewConfirm4 ledger0 draft4five).1 draft4five).1.bookings 1 = 10 ∧
    ((-5 : Int) < 0) ∧ ((5 : Int) < 10) := by
  decide

/-- C1, amended: in the `part_005` revision (whose confirmation re-checks
availability before its decrement), any sequence of sequential
booking-confirmation attempts keeps every departure's remaining seat count
≥ 0, changes it only by the passengers of the bookings recorded against it,
and — starting from an empty booking collection — keeps the total
passengers successfully reserved against a departure within its original
seat count.  (In the `part_004` revision the decrement is unconditional and
the counterexample above drives the count negative.) -/
theorem C1_amended_seat_invariant :
    ∀ (ds : List Draft5) (w : LedgerWorld),
      (∀ dep ∈ w.departures, 0 ≤ dep.availableSeats) →
      (∀ dep ∈ (runConfirms5 w ds).departures, 0 ≤ dep.availableSeats) ∧
      (∀ i s0 s1, seatsOfL w.departures i = some s0 →
          seatsOfL (runConfirms5 w ds).departures i = some s1 →
          s1 + (sumPassengers (runConfirms5 w ds).bookings i
                - sumPassengers w.bookings i) = s0) ∧
      (w.bookings = [] → ∀ i s0, seatsOfL w.departures i = some s0 →
          sumPassengers (runConfirms5 w ds).bookings i ≤ s0) := by
  intro ds w hpos
  have h := runConfirms5_invariant ds w hpos
  refine ⟨h.1, ?_, ?_⟩
  · intro i s0 s1 h0 hrun
    rcases h.2 i s0 h0 with ⟨s1', hS1, hrel⟩
    rw [hrun] at hS1
    have heq : s1 = s1' := Option.some.inj hS1
    omega
  · intro hb i s0 h0
    rcases h.2 i s0 h0 with ⟨s1, hS1, hrel⟩
    have hzero : sumPassengers w.bookings i = 0 := by rw [hb]; rfl
    cases hf : findDepL (runConfirms5 w ds).departures i with
    | none =>
        unfold seatsOfL at hS1
        rw [hf] at hS1
        exact absurd hS1 (by simp)
    | some dep =>
        have hds : dep.availableSeats = s1 := by
          unfold seatsOfL at hS1
          rw [hf] at hS1
          simpa using hS1
        have hnn : 0 ≤ dep.availableSeats := h.1 dep (findDepL_mem hf)
        omega

/-- C1, witness for the amended theorem: three sequential attempts of 2
seats each against 5 seats — two succeed, the third hits the sold-out check
— and the recorded passenger total 4 stays within the original capacity. -/
theorem C1_amended_witness :
    sumPassengers (runConfirms5 ledger0 [draft5two, draft5two, draft5two]).bookings 1 ≤ 5 :=
  (C1_amended_seat_invariant [draft5two, draft5two, draft5two] ledger0
      (by decide)).2.2 rfl 1 5 rfl
